import Mathlib

/-!
Verification of the journalist-agent core (SQLite store, ingestion pipeline,
trend engine, weekly/monthly report aggregator) against its specification.

The Python source is shallowly embedded: each relevant Python function from
`src/agents/` becomes an executable Lean definition of the same name, the
SQLite tables become lists of row structures threaded through a `Db` state,
Python `float` arithmetic becomes exact `ℚ` arithmetic, fallible code
(`KeyError`, SQLite `IntegrityError`) becomes `Except String`.
Calendar days are represented as integers (ISO date strings compare
lexicographically exactly like day numbers, so `=`, `<=` and `ORDER BY`
on dates are preserved by the encoding).
-/

set_option autoImplicit false

/-- `TrendStatus` enum from `trend_analyzer.py`. -/
inductive TrendStatus where
  | RISING
  | STEADY
  | DECLINING
  | NEW
deriving DecidableEq, Repr

/-- `classify_trend(growth_7d, growth_trend, stars_7d_ago)` from
`trend_analyzer.py` lines 92-107.  `growth_7d` is an integer star delta,
`growth_trend` (the acceleration) a Python float modelled as `ℚ`,
`stars_7d_ago` is `None` exactly when no snapshot ≥ 7 days old exists. -/
def classify_trend (growth_7d : Int) (growth_trend : ℚ) (stars_7d_ago : Option Int) :
    TrendStatus :=
  match stars_7d_ago with
  | none => TrendStatus.NEW
  | some _ =>
    if growth_7d > 100 ∧ growth_trend > 1/5 then TrendStatus.RISING
    else if growth_7d < 0 ∨ growth_trend < -(1/2) then TrendStatus.DECLINING
    else TrendStatus.STEADY

/-- A row of the `repositories` table (`db.py` lines 34-44):
`github_id INTEGER UNIQUE` (nullable), `full_name TEXT NOT NULL UNIQUE`. -/
structure RepoRow where
  id : Int
  github_id : Option Int
  full_name : String
  description : Option String
  url : String
  language : Option String
deriving DecidableEq, Repr

/-- A row of `repo_snapshots` (`db.py` lines 47-57): `UNIQUE(repo_id, snapshot_date)`. -/
structure SnapRow where
  repo_id : Int
  stars : Int
  forks : Option Int
  open_issues : Option Int
  snapshot_date : Int
deriving DecidableEq, Repr

/-- A row of `repo_mentions` (`db.py` lines 141-149): `UNIQUE(repo_id, source_type, source_id)`. -/
structure MentionRow where
  repo_id : Int
  source_type : String
  source_id : Int
  mention_date : Int
deriving DecidableEq, Repr

/-- A row of `hn_stories` (`db.py` lines 87-98): `hn_id INTEGER UNIQUE NOT NULL`. -/
structure HnStoryRow where
  id : Int
  hn_id : Int
  title : String
  url : Option String
  score : Option Int
  comment_count : Option Int
  author : Option String
  hn_link : Option String
  article_summary : Option String
deriving DecidableEq, Repr

/-- A row of `reddit_posts` (`db.py` lines 111-126): `reddit_id TEXT UNIQUE NOT NULL`. -/
structure RedditPostRow where
  id : Int
  reddit_id : String
  subreddit : String
  title : String
  url : Option String
  selftext : Option String
  score : Option Int
  upvote_ratio : Option ℚ
  comment_count : Option Int
  author : Option String
  permalink : Option String
  is_self : Option Bool
  created_utc : Option Int
deriving DecidableEq, Repr

/-- A stored weekly report row (`weekly_reports`, `db.py` lines 293-300).
`report_data` is the JSON payload; it is kept structured here (see `ReportData`). -/
structure LangTrendStats where
  count : Int
  avg_growth : ℚ
  total_growth : Int
deriving DecidableEq, Repr

/-- The `summary` object of a weekly report payload (`weekly_report.py` lines 158-165). -/
structure ReportSummary where
  rising_count : Int
  avg_growth : ℚ
  top_language : String
deriving DecidableEq, Repr

/-- The parts of a weekly report JSON payload that `generate_monthly_report` reads:
`summary`, `language_trends` and the names in `rising_stars`. -/
structure ReportData where
  summary : Option ReportSummary
  language_trends : List (String × LangTrendStats)
  rising_stars : List String
deriving DecidableEq, Repr

/-- A row of `weekly_reports`. -/
structure WeeklyReportRow where
  chat_id : Option String
  week_start : Int
  week_end : Int
  report_data : ReportData
deriving DecidableEq, Repr

/-- The SQLite database state: one list per table used by the core. -/
structure Db where
  repositories : List RepoRow
  repo_snapshots : List SnapRow
  repo_topics : List (Int × String)
  repo_files : List (Int × String)
  repo_readmes : List (Int × String)
  repo_mentions : List MentionRow
  hn_stories : List HnStoryRow
  hn_comments : List (Int × Option String × Option String)
  reddit_posts : List RedditPostRow
  reddit_comments : List (Int × Option String × Option String × Option String × Option Int)
  briefing_repos : List (Int × Int × String)
  weekly_reports : List WeeklyReportRow
deriving DecidableEq, Repr

/-- The empty database (fresh `init_db`). -/
def Db.empty : Db :=
  ⟨[], [], [], [], [], [], [], [], [], [], [], []⟩

/-- Python dict access `record["key"]`: raises `KeyError` when the key is missing.
Optional access `record.get("key")` is the `Option` value itself. -/
def pyKey {α : Type} (v : Option α) (key : String) : Except String α :=
  match v with
  | some a => Except.ok a
  | none => Except.error ("KeyError: " ++ key)

/-- `AUTOINCREMENT` for `repositories.id`: one more than the largest id in use. -/
def nextId (ids : List Int) : Int :=
  (ids.foldl (fun m i => max m i) 0) + 1

/-- An input repository record as handed to the Ingestor (`fetcher` output,
see `persist_github_repos` and `upsert_repository` field accesses).
Fields accessed with `[...]` in Python are mandatory; missing ones raise. -/
structure RepoRecord where
  github_id : Option Int
  name : Option String
  desc : Option String
  url : Option String
  lang : Option String
  stars : Option Int
  forks : Option Int
  open_issues : Option Int
  topics : Option (List String)
  files : Option (List String)
  readme : Option String
deriving DecidableEq, Repr

/-- `upsert_repository(repo_data)` from `db.py` lines 323-362.
The existing row is looked up by `github_id` only (`WHERE github_id = ?`;
a `None` parameter matches no row, since `NULL = NULL` is not true in SQL).
On a hit the row is updated in place; otherwise a plain `INSERT` is issued,
which raises an `IntegrityError` when `full_name` (or `github_id`) already
exists, because the schema declares both `UNIQUE`. -/
def upsert_repository (db : Db) (r : RepoRecord) : Except String (Db × Int) :=
  let existing : Option RepoRow :=
    match r.github_id with
    | some g => db.repositories.find? (fun row => row.github_id = some g)
    | none => none
  match pyKey r.name "name" with
  | Except.error e => Except.error e
  | Except.ok name =>
  match pyKey r.url "url" with
  | Except.error e => Except.error e
  | Except.ok url =>
  match existing with
  | some row =>
    if db.repositories.any (fun q => q.id ≠ row.id ∧ q.full_name = name) then
      Except.error "UNIQUE constraint failed: repositories.full_name"
    else
      Except.ok
        ({ db with repositories := db.repositories.map (fun q =>
            if q.id = row.id then
              { q with full_name := name, description := r.desc, url := url,
                       language := r.lang }
            else q) }, row.id)
  | none =>
    if db.repositories.any (fun q => q.full_name = name) then
      Except.error "UNIQUE constraint failed: repositories.full_name"
    else if (match r.github_id with
             | some g => db.repositories.any (fun q => q.github_id = some g)
             | none => false) then
      Except.error "UNIQUE constraint failed: repositories.github_id"
    else
      let newId := nextId (db.repositories.map (fun q => q.id))
      Except.ok
        ({ db with repositories := db.repositories ++
            [⟨newId, r.github_id, name, r.desc, url, r.lang⟩] }, newId)

/-- `save_repo_snapshot(repo_id, stars, forks, open_issues)` from `db.py`
lines 365-377: `INSERT ... ON CONFLICT(repo_id, snapshot_date) DO UPDATE SET`
the star/fork/issue counts.  `today` is `date.today().isoformat()`. -/
def save_repo_snapshot (db : Db) (repo_id : Int) (stars : Int)
    (forks open_issues : Option Int) (today : Int) : Db :=
  if db.repo_snapshots.any (fun s => s.repo_id = repo_id ∧ s.snapshot_date = today) then
    { db with repo_snapshots := db.repo_snapshots.map (fun s =>
        if s.repo_id = repo_id ∧ s.snapshot_date = today then
          { s with stars := stars, forks := forks, open_issues := open_issues }
        else s) }
  else
    { db with repo_snapshots := db.repo_snapshots ++
        [⟨repo_id, stars, forks, open_issues, today⟩] }

/-- `save_repo_topics` from `db.py` lines 380-387: `INSERT OR IGNORE` per topic. -/
def save_repo_topics (db : Db) (repo_id : Int) (topics : List String) : Db :=
  topics.foldl (fun d t =>
    if d.repo_topics.any (fun p => p.1 = repo_id ∧ p.2 = t) then d
    else { d with repo_topics := d.repo_topics ++ [(repo_id, t)] }) db

/-- `save_repo_files` from `db.py` lines 390-397: `INSERT OR IGNORE` per filename. -/
def save_repo_files (db : Db) (repo_id : Int) (files : List String) : Db :=
  files.foldl (fun d f =>
    if d.repo_files.any (fun p => p.1 = repo_id ∧ p.2 = f) then d
    else { d with repo_files := d.repo_files ++ [(repo_id, f)] }) db

/-- `save_repo_readme` from `db.py` lines 400-409: upsert keyed on `repo_id`. -/
def save_repo_readme (db : Db) (repo_id : Int) (content : String) : Db :=
  if db.repo_readmes.any (fun p => p.1 = repo_id) then
    { db with repo_readmes := db.repo_readmes.map (fun p =>
        if p.1 = repo_id then (p.1, content) else p) }
  else
    { db with repo_readmes := db.repo_readmes ++ [(repo_id, content)] }

/-- `save_repo_mention(repo_id, source_type, source_id)` from `db.py`
lines 524-531: `INSERT OR IGNORE` against `UNIQUE(repo_id, source_type, source_id)`. -/
def save_repo_mention (db : Db) (repo_id : Int) (source_type : String)
    (source_id : Int) (today : Int) : Db :=
  if db.repo_mentions.any (fun m =>
      m.repo_id = repo_id ∧ m.source_type = source_type ∧ m.source_id = source_id) then
    db
  else
    { db with repo_mentions := db.repo_mentions ++
        [⟨repo_id, source_type, source_id, today⟩] }

/-- `get_repo_by_name(full_name)` from `db.py` lines 412-419. -/
def get_repo_by_name (db : Db) (full_name : String) : Option RepoRow :=
  db.repositories.find? (fun r => r.full_name = full_name)

/-- `get_all_repos_with_snapshots()` from `db.py` lines 622-630:
`SELECT DISTINCT r.* FROM repositories r JOIN repo_snapshots rs ON r.id = rs.repo_id`. -/
def get_all_repos_with_snapshots (db : Db) : List RepoRow :=
  db.repositories.filter (fun r => db.repo_snapshots.any (fun s => s.repo_id = r.id))

/-- The `ORDER BY snapshot_date DESC LIMIT 1` sub-query of `get_star_growth`:
latest snapshot of `repo_id` dated at most `cutoff`. -/
def latestSnapshotAtMost (db : Db) (repo_id cutoff : Int) : Option SnapRow :=
  (db.repo_snapshots.filter
      (fun s => s.repo_id = repo_id ∧ s.snapshot_date ≤ cutoff)).foldl
    (fun acc s =>
      match acc with
      | none => some s
      | some t => if s.snapshot_date > t.snapshot_date then some s else some t)
    none

/-- `get_star_growth(repo_id, days)` from `db.py` lines 598-619.
The `current` row requires `snapshot_date = today` exactly; the `past` row is
the latest snapshot dated `<= today - days`.  Returns `(current, past?)`, or
`None` when there is no snapshot dated today. -/
def get_star_growth (db : Db) (repo_id : Int) (days : Int) (today : Int) :
    Option (Int × Option Int) :=
  match db.repo_snapshots.find?
      (fun s => s.repo_id = repo_id ∧ s.snapshot_date = today) with
  | none => none
  | some cur =>
    some (cur.stars, (latestSnapshotAtMost db repo_id (today - days)).map (fun s => s.stars))

/-- `get_mention_counts(repo_id, days)` from `db.py` lines 534-548:
`(hn, reddit)` mention counts with `mention_date >= today - days`. -/
def get_mention_counts (db : Db) (repo_id : Int) (days : Int) (today : Int) : Int × Int :=
  (((db.repo_mentions.filter (fun m =>
      m.repo_id = repo_id ∧ m.mention_date ≥ today - days ∧ m.source_type = "hn")).length : Int),
   ((db.repo_mentions.filter (fun m =>
      m.repo_id = repo_id ∧ m.mention_date ≥ today - days ∧ m.source_type = "reddit")).length : Int))

/-- `get_feature_count(repo_id)` from `db.py` lines 586-593. -/
def get_feature_count (db : Db) (repo_id : Int) : Int :=
  ((db.briefing_repos.filter (fun b => b.2.1 = repo_id)).length : Int)

/-- Insert a weekly-report row into a list already sorted by `week_start`
descending (`ORDER BY week_start DESC`). -/
def insertWeekDesc (w : WeeklyReportRow) : List WeeklyReportRow → List WeeklyReportRow
  | [] => [w]
  | x :: xs => if w.week_start > x.week_start then w :: x :: xs else x :: insertWeekDesc w xs

/-- Sort weekly-report rows by `week_start` descending (newest first). -/
def sortWeeksDesc : List WeeklyReportRow → List WeeklyReportRow
  | [] => []
  | x :: xs => insertWeekDesc x (sortWeeksDesc xs)

/-- `get_weekly_reports(chat_id, limit)` from `db.py` lines 1112-1132:
the most recent `limit` rows, newest first (`ORDER BY week_start DESC LIMIT ?`),
filtered by `chat_id` when one is given (Python truthiness: a non-empty string). -/
def get_weekly_reports (db : Db) (chat_id : Option String) (limit : Nat) :
    List WeeklyReportRow :=
  let rows :=
    if (match chat_id with | some c => decide (c ≠ "") | none => false) = true then
      db.weekly_reports.filter (fun w => w.chat_id = chat_id)
    else
      db.weekly_reports
  (sortWeeksDesc rows).take limit

/-- `TrendMetrics` dataclass from `trend_analyzer.py` lines 18-32. -/
structure TrendMetrics where
  repo_name : String
  repo_id : Int
  current_stars : Int
  stars_7d_ago : Option Int
  stars_14d_ago : Option Int
  growth_7d : Int
  growth_7d_pct : ℚ
  growth_trend : ℚ
  hn_mentions_7d : Int
  reddit_mentions_7d : Int
  total_mentions_7d : Int
  status : TrendStatus
  times_featured : Int
deriving DecidableEq, Repr

/-- Python `round(x, 2)` on the exact rational value (ties are negligible here;
the classification itself uses the unrounded value, as in the source). -/
def round2 (x : ℚ) : ℚ := ((round (x * 100) : Int) : ℚ) / 100

/-- Python `round(x, 1)`. -/
def round1 (x : ℚ) : ℚ := ((round (x * 10) : Int) : ℚ) / 10

/-- `calculate_trend_metrics(repo_id, repo_name)` from `trend_analyzer.py`
lines 35-89.  Returns `None` exactly when `get_star_growth(repo_id, 7)` does
(no snapshot dated today); otherwise computes growth, acceleration, mention
counts, feature count and the classification. -/
def calculate_trend_metrics (db : Db) (repo_id : Int) (repo_name : String)
    (today : Int) : Option TrendMetrics :=
  let growth_7d := get_star_growth db repo_id 7 today
  let growth_14d := get_star_growth db repo_id 14 today
  match growth_7d with
  | none => none
  | some (current_stars, stars_7d_ago) =>
    let stars_14d_ago : Option Int :=
      match growth_14d with
      | some (_, p) => p
      | none => none
    let abs_growth_7d : Int :=
      match stars_7d_ago with
      | some s => current_stars - s
      | none => 0
    let pct_growth_7d : ℚ :=
      match stars_7d_ago with
      | some s => if s > 0 then ((current_stars - s : Int) : ℚ) / (s : ℚ) * 100 else 0
      | none => 0
    let growth_trend : ℚ :=
      match stars_7d_ago, stars_14d_ago with
      | some s7, some s14 =>
        let growth_first_week := s7 - s14
        let growth_second_week := current_stars - s7
        if growth_first_week ≠ 0 then
          ((growth_second_week - growth_first_week : Int) : ℚ) / |(growth_first_week : ℚ)|
        else 0
      | _, _ => 0
    let mentions := get_mention_counts db repo_id 7 today
    let times_featured := get_feature_count db repo_id
    let status := classify_trend abs_growth_7d growth_trend stars_7d_ago
    some
      { repo_name := repo_name
        repo_id := repo_id
        current_stars := current_stars
        stars_7d_ago := stars_7d_ago
        stars_14d_ago := stars_14d_ago
        growth_7d := abs_growth_7d
        growth_7d_pct := round2 pct_growth_7d
        growth_trend := round2 growth_trend
        hn_mentions_7d := mentions.1
        reddit_mentions_7d := mentions.2
        total_mentions_7d := mentions.1 + mentions.2
        status := status
        times_featured := times_featured }

/-- The metric-collection loop of `generate_trend_report` (`trend_analyzer.py`
lines 142-161): for each input repo name, look the repository up by name, skip
it when missing, compute trend metrics, skip when `None`; every category of
the report is built from the resulting `all_metrics` list. -/
def trend_report_metrics (db : Db) (repo_names : List String) (today : Int) :
    List TrendMetrics :=
  repo_names.filterMap (fun n =>
    match get_repo_by_name db n with
    | none => none
    | some r => calculate_trend_metrics db r.id n today)

/-- The metric-collection loop of `generate_weekly_report` (`weekly_report.py`
lines 83-98): metrics of every repository having at least one snapshot, with
`None` results skipped. -/
def weekly_report_metrics (db : Db) (today : Int) : List TrendMetrics :=
  (get_all_repos_with_snapshots db).filterMap (fun r =>
    calculate_trend_metrics db r.id r.full_name today)

/-- The character class `[a-zA-Z0-9_.-]` of the URL regex in
`extract_github_repo_from_url` (`data_persister.py` line 13). -/
def isClassChar (c : Char) : Bool :=
  c.isAlpha || c.isDigit || c = '_' || c = '.' || c = '-'

/-- `leadsWith pat l`: `pat` is a prefix of `l` (character lists). -/
def leadsWith : List Char → List Char → Bool
  | [], _ => true
  | _ :: _, [] => false
  | p :: ps, c :: cs => p = c && leadsWith ps cs

/-- `occursIn needle hay`: `needle` occurs as a contiguous substring of `hay`
(Python `needle in hay`). -/
def occursIn : List Char → List Char → Bool
  | needle, [] => leadsWith needle []
  | needle, c :: cs => leadsWith needle (c :: cs) || occursIn needle cs

/-- Try to match `github\.com/([a-zA-Z0-9_.-]+/[a-zA-Z0-9_.-]+)` at the start
of `l`, returning the capture group.  Because `/` is not in the character
class, the greedy `+` runs are exactly the maximal class-character runs, so no
backtracking is needed to model `re.search` at a fixed position. -/
def matchCapture (l : List Char) : Option (List Char) :=
  if leadsWith ("github.com/".data) l then
    let rest := l.drop ("github.com/".data).length
    let r1 := rest.takeWhile isClassChar
    let rest1 := rest.dropWhile isClassChar
    if r1 ≠ [] then
      match rest1 with
      | '/' :: rest2 =>
        let r2 := rest2.takeWhile isClassChar
        if r2 ≠ [] then some (r1 ++ '/' :: r2) else none
      | _ => none
    else none
  else none

/-- `re.search` over the whole string: the leftmost position where the pattern
matches wins. -/
def searchCapture : List Char → Option (List Char)
  | [] => none
  | c :: cs =>
    match matchCapture (c :: cs) with
    | some r => some r
    | none => searchCapture cs

/-- `endsWithL l suffix`: `l` ends with `suffix`. -/
def endsWithL (l suffix : List Char) : Bool :=
  leadsWith suffix.reverse l.reverse

/-- `re.sub(r'\.(git|md|html?)$', '', repo)` from `data_persister.py` line 17:
strip one trailing `.git`, `.md`, `.html` or `.htm` extension.  The `$` anchor
admits at most one match, and the possible suffixes are mutually exclusive. -/
def stripExt (l : List Char) : List Char :=
  if endsWithL l (".git".data) then l.take (l.length - 4)
  else if endsWithL l (".html".data) then l.take (l.length - 5)
  else if endsWithL l (".htm".data) then l.take (l.length - 4)
  else if endsWithL l (".md".data) then l.take (l.length - 3)
  else l

/-- Python `str.lower()` on the character list.  The strings this is applied
to are drawn from the ASCII class `[a-zA-Z0-9_.-]` plus `/`, on which
`Char.toLower` agrees with Python's Unicode lower-casing. -/
def pyLower (l : List Char) : List Char :=
  l.map Char.toLower

/-- `extract_github_repo_from_url(url)` from `data_persister.py` lines 9-19:
`None` for a falsy (empty) string, otherwise search for the GitHub URL
pattern, strip a trailing extension from the captured `owner/name`, and
lower-case the result. -/
def extract_github_repo_from_url (url : String) : Option String :=
  if url = "" then none
  else
    match searchCapture url.data with
    | some cap => some (String.mk (pyLower (stripExt cap)))
    | none => none

/-- An input HN story record (`hn_fetcher` output, fields as accessed by
`save_hn_story` and `persist_hn_data`).  `top_comments` entries are
`(author, text)`. -/
structure HnStory where
  id : Option Int
  title : Option String
  url : Option String
  score : Option Int
  comments : Option Int
  author : Option String
  hn_link : Option String
  article_summary : Option String
  top_comments : Option (List (Option String × Option String))
deriving DecidableEq, Repr

/-- `save_hn_story(story_data)` from `db.py` lines 437-459: upsert keyed on the
unique `hn_id`, updating score/comment-count/summary on conflict, returning
the row id.  `story_data["id"]` and `story_data["title"]` are mandatory. -/
def save_hn_story (db : Db) (story : HnStory) : Except String (Db × Int) :=
  match pyKey story.id "id" with
  | Except.error e => Except.error e
  | Except.ok hn_id =>
  match pyKey story.title "title" with
  | Except.error e => Except.error e
  | Except.ok title =>
  match db.hn_stories.find? (fun s => s.hn_id = hn_id) with
  | some row =>
    Except.ok
      ({ db with hn_stories := db.hn_stories.map (fun s =>
          if s.hn_id = hn_id then
            { s with score := story.score, comment_count := story.comments,
                     article_summary := story.article_summary }
          else s) }, row.id)
  | none =>
    let newId := nextId (db.hn_stories.map (fun s => s.id))
    Except.ok
      ({ db with hn_stories := db.hn_stories ++
          [⟨newId, hn_id, title, story.url, story.score, story.comments,
            story.author, story.hn_link, story.article_summary⟩] }, newId)

/-- `save_hn_comments(story_id, comments)` from `db.py` lines 462-469: plain
appends (the table has no uniqueness constraint). -/
def save_hn_comments (db : Db) (story_id : Int)
    (comments : List (Option String × Option String)) : Db :=
  { db with hn_comments := db.hn_comments ++
      comments.map (fun c => (story_id, c.1, c.2)) }

/-- The deduplication pass of `persist_hn_data` (`data_persister.py` lines
71-76): keep the first occurrence of each truthy id (`story.get("id")` is
falsy for `None` and for `0`). -/
def dedupHnGo : List HnStory → List Int → List HnStory
  | [], _ => []
  | s :: rest, seen =>
    match s.id with
    | some i =>
      if i ≠ 0 ∧ i ∉ seen then s :: dedupHnGo rest (i :: seen)
      else dedupHnGo rest seen
    | none => dedupHnGo rest seen

/-- Processing of one HN story inside the loop of `persist_hn_data`
(`data_persister.py` lines 78-97): save the story, save its comments when
present, extract a GitHub repo from the lower-cased URL and record a mention
when the repo is tracked.  The second component is the uncaught exception, if
one was raised. -/
def persist_hn_story_step (db : Db) (repo_name_to_id : List (String × Int))
    (today : Int) (story : HnStory) : Db × Option String :=
  match save_hn_story db story with
  | Except.error e => (db, some e)
  | Except.ok (db1, story_id) =>
    let db2 :=
      match story.top_comments with
      | some cs => if cs ≠ [] then save_hn_comments db1 story_id cs else db1
      | none => db1
    let url := String.mk (pyLower ((story.url.getD "").data))
    let db3 :=
      match extract_github_repo_from_url url with
      | some rn =>
        match repo_name_to_id.find? (fun e => e.1 = rn) with
        | some e => save_repo_mention db2 e.2 "hn" story_id today
        | none => db2
      | none => db2
    (db3, none)

/-- The story loop of `persist_hn_data`: processes stories in order and stops
at the first uncaught exception (there is no `try/except` in the source). -/
def persistHnLoop (repo_name_to_id : List (String × Int)) (today : Int) :
    Db → List HnStory → Db × Option String
  | db, [] => (db, none)
  | db, s :: rest =>
    match persist_hn_story_step db repo_name_to_id today s with
    | (db1, some e) => (db1, some e)
    | (db1, none) => persistHnLoop repo_name_to_id today db1 rest

/-- The `hn_data` dict handed to `persist_hn_data` (`data_persister.py`
lines 63-67), accessed with `.get(..., [])`. -/
structure HnData where
  top_stories : Option (List HnStory)
  github_mentions : Option (List HnStory)
  tech_discussions : Option (List HnStory)
deriving DecidableEq, Repr

/-- `persist_hn_data(hn_data, repo_name_to_id)` from `data_persister.py`
lines 58-99: concatenate the three story categories, deduplicate by id, then
process each unique story in order. -/
def persist_hn_data (hn_data : HnData) (repo_name_to_id : List (String × Int))
    (db : Db) (today : Int) : Db × Option String :=
  let all_stories :=
    hn_data.top_stories.getD [] ++ hn_data.github_mentions.getD [] ++
      hn_data.tech_discussions.getD []
  persistHnLoop repo_name_to_id today db (dedupHnGo all_stories [])

/-- An input Reddit post record (`reddit_fetcher` output, fields as accessed
by `save_reddit_post` and `persist_reddit_data`).  `top_comments` entries are
`(id, author, text, score)`. -/
structure RedditPost where
  id : Option String
  subreddit : Option String
  title : Option String
  url : Option String
  selftext : Option String
  score : Option Int
  upvote_ratio : Option ℚ
  comments : Option Int
  author : Option String
  permalink : Option String
  is_self : Option Bool
  created_utc : Option Int
  top_comments : Option (List (Option String × Option String × Option String × Option Int))
deriving DecidableEq, Repr

/-- `save_reddit_post(post_data)` from `db.py` lines 474-503: upsert keyed on
the unique `reddit_id`, updating score/upvote-ratio/comment-count on
conflict, returning the row id.  `id`, `subreddit` and `title` are mandatory. -/
def save_reddit_post (db : Db) (post : RedditPost) : Except String (Db × Int) :=
  match pyKey post.id "id" with
  | Except.error e => Except.error e
  | Except.ok reddit_id =>
  match pyKey post.subreddit "subreddit" with
  | Except.error e => Except.error e
  | Except.ok subreddit =>
  match pyKey post.title "title" with
  | Except.error e => Except.error e
  | Except.ok title =>
  match db.reddit_posts.find? (fun p => p.reddit_id = reddit_id) with
  | some row =>
    Except.ok
      ({ db with reddit_posts := db.reddit_posts.map (fun p =>
          if p.reddit_id = reddit_id then
            { p with score := post.score, upvote_ratio := post.upvote_ratio,
                     comment_count := post.comments }
          else p) }, row.id)
  | none =>
    let newId := nextId (db.reddit_posts.map (fun p => p.id))
    Except.ok
      ({ db with reddit_posts := db.reddit_posts ++
          [⟨newId, reddit_id, subreddit, title, post.url, post.selftext,
            post.score, post.upvote_ratio, post.comments, post.author,
            post.permalink, post.is_self, post.created_utc⟩] }, newId)

/-- `save_reddit_comments(post_id, comments)` from `db.py` lines 506-519. -/
def save_reddit_comments (db : Db) (post_id : Int)
    (comments : List (Option String × Option String × Option String × Option Int)) : Db :=
  { db with reddit_comments := db.reddit_comments ++
      comments.map (fun c => (post_id, c.1, c.2.1, c.2.2.1, c.2.2.2)) }

/-- The deduplication pass of `persist_reddit_data` (`data_persister.py`
lines 115-120): keep the first occurrence of each truthy (non-empty) id. -/
def dedupRedditGo : List RedditPost → List String → List RedditPost
  | [], _ => []
  | p :: rest, seen =>
    match p.id with
    | some i =>
      if i ≠ "" ∧ i ∉ seen then p :: dedupRedditGo rest (i :: seen)
      else dedupRedditGo rest seen
    | none => dedupRedditGo rest seen

/-- `tracked_repo.split("/")[-1]`: the segment after the last slash. -/
def lastSeg (s : String) : String :=
  (s.splitOn "/").getLastD ""

/-- The per-repository test of the self-text matching loop
(`data_persister.py` line 146): the tracked repo's full name or its bare name
occurs in the (lower-cased) self-text. -/
def bodyPred (selftext : String) (name : String) : Bool :=
  occursIn name.data selftext.data || occursIn (lastSeg name).data selftext.data

/-- The self-text matching loop of `persist_reddit_data` (`data_persister.py`
lines 143-153): scan the tracked repositories in iteration order, record a
mention for the first one whose full or bare name occurs in the self-text,
then `break`. -/
def redditBodyLoop (today post_id : Int) (selftext : String) :
    Db → List (String × Int) → Db
  | db, [] => db
  | db, e :: rest =>
    if bodyPred selftext e.1 then save_repo_mention db e.2 "reddit" post_id today
    else redditBodyLoop today post_id selftext db rest

/-- Processing of one Reddit post inside the loop of `persist_reddit_data`
(`data_persister.py` lines 122-153): save the post and its comments, record a
URL-derived mention when the URL names a tracked repo, then run the self-text
matching loop. -/
def persist_reddit_post_step (db : Db) (repo_name_to_id : List (String × Int))
    (today : Int) (post : RedditPost) : Db × Option String :=
  match save_reddit_post db post with
  | Except.error e => (db, some e)
  | Except.ok (db1, post_id) =>
    let db2 :=
      match post.top_comments with
      | some cs => if cs ≠ [] then save_reddit_comments db1 post_id cs else db1
      | none => db1
    let url := String.mk (pyLower ((post.url.getD "").data))
    let db3 :=
      match extract_github_repo_from_url url with
      | some rn =>
        match repo_name_to_id.find? (fun e => e.1 = rn) with
        | some e => save_repo_mention db2 e.2 "reddit" post_id today
        | none => db2
      | none => db2
    let selftext := String.mk (pyLower ((post.selftext.getD "").data))
    (redditBodyLoop today post_id selftext db3 repo_name_to_id, none)

/-- The post loop of `persist_reddit_data`: processes posts in order and stops
at the first uncaught exception. -/
def persistRedditLoop (repo_name_to_id : List (String × Int)) (today : Int) :
    Db → List RedditPost → Db × Option String
  | db, [] => (db, none)
  | db, p :: rest =>
    match persist_reddit_post_step db repo_name_to_id today p with
    | (db1, some e) => (db1, some e)
    | (db1, none) => persistRedditLoop repo_name_to_id today db1 rest

/-- The `reddit_data` dict handed to `persist_reddit_data`
(`data_persister.py` lines 108-111). -/
structure RedditData where
  top_posts : Option (List RedditPost)
  github_mentions : Option (List RedditPost)
  by_subreddit : Option (List (String × List RedditPost))
deriving DecidableEq, Repr

/-- `persist_reddit_data(reddit_data, repo_name_to_id)` from
`data_persister.py` lines 102-155. -/
def persist_reddit_data (reddit_data : RedditData)
    (repo_name_to_id : List (String × Int)) (db : Db) (today : Int) :
    Db × Option String :=
  let all_posts :=
    reddit_data.top_posts.getD [] ++ reddit_data.github_mentions.getD [] ++
      ((reddit_data.by_subreddit.getD []).map (fun e => e.2)).flatten
  persistRedditLoop repo_name_to_id today db (dedupRedditGo all_posts [])

/-- Processing of one repository record inside the loop of
`persist_github_repos` (`data_persister.py` lines 29-52): upsert the
repository, record the map entry, save the daily snapshot (`repo["stars"]` is
mandatory), then topics/files/readme when truthy.  The last component is the
uncaught exception, if one was raised; the middle one the `repo_id_map` entry. -/
def persist_repo_step (db : Db) (today : Int) (r : RepoRecord) :
    Db × Option (String × Int) × Option String :=
  match upsert_repository db r with
  | Except.error e => (db, none, some e)
  | Except.ok (db1, repo_id) =>
    match r.name with
    | none => (db1, none, some "KeyError: name")
    | some nm =>
      match r.stars with
      | none => (db1, none, some "KeyError: stars")
      | some stars =>
        let db2 := save_repo_snapshot db1 repo_id stars r.forks r.open_issues today
        let db3 :=
          match r.topics with
          | some ts => if ts ≠ [] then save_repo_topics db2 repo_id ts else db2
          | none => db2
        let db4 :=
          match r.files with
          | some fs => if fs ≠ [] then save_repo_files db3 repo_id fs else db3
          | none => db3
        let db5 :=
          match r.readme with
          | some rm => if rm ≠ "" then save_repo_readme db4 repo_id rm else db4
          | none => db4
        (db5, some (String.mk (pyLower nm.data), repo_id), none)

/-- The record loop of `persist_github_repos`: processes records in order and
stops at the first uncaught exception (there is no `try/except` in the
source); returns the accumulated `repo_id_map` entries in order. -/
def persistReposLoop (today : Int) :
    Db → List RepoRecord → Db × List (String × Int) × Option String
  | db, [] => (db, [], none)
  | db, r :: rest =>
    match persist_repo_step db today r with
    | (db1, _, some e) => (db1, [], some e)
    | (db1, entry, none) =>
      let res := persistReposLoop today db1 rest
      (res.1, (match entry with | some x => x :: res.2.1 | none => res.2.1), res.2.2)

/-- `persist_github_repos(repos)` from `data_persister.py` lines 22-55. -/
def persist_github_repos (repos : List RepoRecord) (db : Db) (today : Int) :
    Db × List (String × Int) × Option String :=
  persistReposLoop today db repos

/-- `defaultdict(list)` append preserving first-insertion key order (Python
dict iteration order). -/
def assocAppend (m : List (String × List Int)) (k : String) (v : Int) :
    List (String × List Int) :=
  if m.any (fun p => p.1 = k) then
    m.map (fun p => if p.1 = k then (p.1, p.2 ++ [v]) else p)
  else m ++ [(k, [v])]

/-- `defaultdict(int)` increment preserving first-insertion key order. -/
def assocBump (m : List (String × Nat)) (k : String) : List (String × Nat) :=
  if m.any (fun p => p.1 = k) then
    m.map (fun p => if p.1 = k then (p.1, p.2 + 1) else p)
  else m ++ [(k, 1)]

/-- Stable insertion for `sorted(..., key=count, reverse=True)`. -/
def insertCountDesc (x : String × Nat) : List (String × Nat) → List (String × Nat)
  | [] => [x]
  | y :: ys => if x.2 ≥ y.2 then x :: y :: ys else y :: insertCountDesc x ys

/-- Stable descending sort by count (Python `sorted` is stable). -/
def sortCountDesc : List (String × Nat) → List (String × Nat)
  | [] => []
  | x :: xs => insertCountDesc x (sortCountDesc xs)

/-- One entry of the monthly report's `language_evolution` dict
(`weekly_report.py` lines 248-255). -/
structure LangEvo where
  avg_weekly_growth : ℚ
  trend : String
  weeks_tracked : Nat
deriving DecidableEq, Repr

/-- One entry of the monthly report's `weekly_summaries` list
(`weekly_report.py` lines 232-239). -/
structure WeeklySummaryOut where
  week : Int
  rising_count : Int
  avg_growth : ℚ
  top_language : String
deriving DecidableEq, Repr

/-- Stable insertion for `rising_langs.sort(key=avg, reverse=True)`. -/
def insertLangDesc (x : String × LangEvo) :
    List (String × LangEvo) → List (String × LangEvo)
  | [] => [x]
  | y :: ys =>
    if x.2.avg_weekly_growth ≥ y.2.avg_weekly_growth then x :: y :: ys
    else y :: insertLangDesc x ys

/-- Stable descending sort of rising languages by average weekly growth. -/
def sortLangsDesc : List (String × LangEvo) → List (String × LangEvo)
  | [] => []
  | x :: xs => insertLangDesc x (sortLangsDesc xs)

/-- The payload returned by `generate_monthly_report`
(`weekly_report.py` lines 216-225). -/
structure MonthlyReport where
  month_start : Int
  month_end : Int
  weekly_summaries : List WeeklySummaryOut
  monthly_rising_stars : List (String × Nat)
  language_evolution : List (String × LangEvo)
  trend_insights : List String
  predictions : List String
  message : Option String
deriving DecidableEq, Repr

/-- `generate_monthly_report(chat_id)` from `weekly_report.py` lines 206-290:
reads the last 4 persisted weekly reports (newest first), sets the
insufficient-data `message` only when NO weekly report exists, otherwise
builds weekly summaries, per-language evolution (the trend label compares the
last collected growth value, the oldest week, against the first, the newest
week), and consistent risers (repos rising in ≥ 2 of the reports). -/
def generate_monthly_report (db : Db) (chat_id : Option String) (today : Int) :
    MonthlyReport :=
  let weekly_reports := get_weekly_reports db chat_id 4
  let base : MonthlyReport :=
    { month_start := today - 30, month_end := today, weekly_summaries := []
      monthly_rising_stars := [], language_evolution := [], trend_insights := []
      predictions := [], message := none }
  if weekly_reports.isEmpty then
    let msg := "Aylık rapor için yeterli veri yok. En az 2 haftalık veri gerekli."
    { base with message := some msg }
  else
    let weekly_summaries := weekly_reports.map (fun wr =>
      { week := wr.week_start
        rising_count := (wr.report_data.summary.map (fun s => s.rising_count)).getD 0
        avg_growth := (wr.report_data.summary.map (fun s => s.avg_growth)).getD 0
        top_language :=
          (wr.report_data.summary.map (fun s => s.top_language)).getD "N/A" })
    let lang_over_time := weekly_reports.foldl (fun m wr =>
      wr.report_data.language_trends.foldl
        (fun m2 p => assocAppend m2 p.1 p.2.total_growth) m) []
    let language_evolution := lang_over_time.map (fun p =>
      (p.1,
        { avg_weekly_growth := round1 ((p.2.sum : ℚ) / (p.2.length : ℚ))
          trend :=
            if p.2.getLastD 0 > p.2.headD 0 then "rising"
            else if p.2.getLastD 0 < p.2.headD 0 then "declining"
            else "stable"
          weeks_tracked := p.2.length }))
    let repo_appearances := weekly_reports.foldl (fun m wr =>
      wr.report_data.rising_stars.foldl (fun m2 n => assocBump m2 n) m) []
    let consistent_risers :=
      (((sortCountDesc repo_appearances).filter (fun p => p.2 ≥ 2)).take 10)
    let ti1 : List String :=
      match consistent_risers.head? with
      | some top =>
        ["🏆 Ayın en tutarlı yükseleni: **" ++ top.1 ++ "** (" ++
          toString top.2 ++ " hafta üst üste yükselişte)"]
      | none => []
    let rising_langs :=
      sortLangsDesc (language_evolution.filter (fun p => p.2.trend = "rising"))
    let ti2 : List String :=
      match rising_langs.head? with
      | some top =>
        ["📈 Yükselen dil: **" ++ top.1 ++ "** (haftalık ortalama +" ++
          toString top.2.avg_weekly_growth ++ " ⭐)"]
      | none => []
    { base with weekly_summaries := weekly_summaries
                monthly_rising_stars := consistent_risers
                language_evolution := language_evolution
                trend_insights := ti1 ++ ti2 }

/-- C1: the momentum classification is decided in priority order: NEW whenever
`stars_7d_ago` is absent (regardless of growth), else RISING exactly when
`growth_7d > 100` and the acceleration exceeds `0.2`, else DECLINING exactly
when `growth_7d < 0` or the acceleration is below `-0.5`, else STEADY. -/
theorem classify_trend_priority_order (g : Int) (a : ℚ) :
    classify_trend g a none = TrendStatus.NEW ∧
    (∀ s : Int,
      (classify_trend g a (some s) = TrendStatus.RISING ↔ g > 100 ∧ a > 1/5) ∧
      (classify_trend g a (some s) = TrendStatus.DECLINING ↔
        ¬(g > 100 ∧ a > 1/5) ∧ (g < 0 ∨ a < -(1/2))) ∧
      (classify_trend g a (some s) = TrendStatus.STEADY ↔
        ¬(g > 100 ∧ a > 1/5) ∧ ¬(g < 0 ∨ a < -(1/2)))) := by
  refine ⟨rfl, fun s => ⟨?_, ?_, ?_⟩⟩ <;>
    (unfold classify_trend; split_ifs with h1 h2 <;> simp_all)

/-- Number of snapshot rows for a given `(repository, date)` pair. -/
def snapCount (db : Db) (rid d : Int) : Nat :=
  db.repo_snapshots.countP (fun s => s.repo_id = rid ∧ s.snapshot_date = d)

theorem snap_upd_keeps_id (rid d s2 : Int) (f2 i2 : Option Int) (x : SnapRow) :
    (if x.repo_id = rid ∧ x.snapshot_date = d then
       { x with stars := s2, forks := f2, open_issues := i2 } else x).repo_id =
      x.repo_id := by
  by_cases h : x.repo_id = rid ∧ x.snapshot_date = d <;> simp [h]

theorem snap_upd_keeps_date (rid d s2 : Int) (f2 i2 : Option Int) (x : SnapRow) :
    (if x.repo_id = rid ∧ x.snapshot_date = d then
       { x with stars := s2, forks := f2, open_issues := i2 } else x).snapshot_date =
      x.snapshot_date := by
  by_cases h : x.repo_id = rid ∧ x.snapshot_date = d <;> simp [h]

theorem snap_map_countP (l : List SnapRow) (rid d s2 : Int) (f2 i2 : Option Int) :
    (l.map (fun x => if x.repo_id = rid ∧ x.snapshot_date = d then
        { x with stars := s2, forks := f2, open_issues := i2 } else x)).countP
      (fun x => x.repo_id = rid ∧ x.snapshot_date = d) =
    l.countP (fun x => x.repo_id = rid ∧ x.snapshot_date = d) := by
  induction l with
  | nil => rfl
  | cons a t ih =>
    simp only [List.map_cons, List.countP_cons, ih,
      snap_upd_keeps_id rid d s2 f2 i2 a, snap_upd_keeps_date rid d s2 f2 i2 a]

theorem snap_map_any (l : List SnapRow) (rid d s2 : Int) (f2 i2 : Option Int) :
    (l.map (fun x => if x.repo_id = rid ∧ x.snapshot_date = d then
        { x with stars := s2, forks := f2, open_issues := i2 } else x)).any
      (fun x => x.repo_id = rid ∧ x.snapshot_date = d) =
    l.any (fun x => x.repo_id = rid ∧ x.snapshot_date = d) := by
  induction l with
  | nil => rfl
  | cons a t ih =>
    simp only [List.map_cons, List.any_cons, ih,
      snap_upd_keeps_id rid d s2 f2 i2 a, snap_upd_keeps_date rid d s2 f2 i2 a]

theorem snap_map_values (l : List SnapRow) (rid d s2 : Int) (f2 i2 : Option Int) :
    ∀ row ∈ l.map (fun x => if x.repo_id = rid ∧ x.snapshot_date = d then
        { x with stars := s2, forks := f2, open_issues := i2 } else x),
      row.repo_id = rid → row.snapshot_date = d →
      row.stars = s2 ∧ row.forks = f2 ∧ row.open_issues = i2 := by
  induction l with
  | nil => simp
  | cons a t ih =>
    intro row hmem h1 h2
    simp only [List.map_cons, List.mem_cons] at hmem
    rcases hmem with h | h
    · by_cases ha : a.repo_id = rid ∧ a.snapshot_date = d
      · subst h
        simp [ha]
      · subst h
        simp only [if_neg ha] at h1 h2 ⊢
        exact absurd ⟨h1, h2⟩ ha
    · exact ih row h h1 h2

theorem save_snapshot_any (db : Db) (rid s d : Int) (f i : Option Int) :
    (save_repo_snapshot db rid s f i d).repo_snapshots.any
      (fun x => x.repo_id = rid ∧ x.snapshot_date = d) = true := by
  unfold save_repo_snapshot
  by_cases h : db.repo_snapshots.any
      (fun x => x.repo_id = rid ∧ x.snapshot_date = d) = true
  · simp only [h, if_true]
    rw [snap_map_any]
    exact h
  · simp only [h, if_false]
    simp

theorem save_snapshot_count (db : Db) (rid s d : Int) (f i : Option Int)
    (hinv : snapCount db rid d ≤ 1) :
    snapCount (save_repo_snapshot db rid s f i d) rid d = 1 := by
  unfold save_repo_snapshot snapCount at *
  by_cases h : db.repo_snapshots.any
      (fun x => x.repo_id = rid ∧ x.snapshot_date = d) = true
  · simp only [h, if_true]
    rw [snap_map_countP]
    rcases List.any_eq_true.mp h with ⟨a, ha, hpa⟩
    have hpos : 0 < db.repo_snapshots.countP
        (fun x => x.repo_id = rid ∧ x.snapshot_date = d) :=
      List.countP_pos_iff.mpr ⟨a, ha, hpa⟩
    omega
  · have hz : db.repo_snapshots.countP
        (fun x => x.repo_id = rid ∧ x.snapshot_date = d) = 0 := by
      rw [List.countP_eq_zero]
      intro a ha hpa
      exact h (List.any_eq_true.mpr ⟨a, ha, hpa⟩)
    rw [if_neg h, List.countP_append, hz]
    simp

theorem save_snapshot_len_of_any (db : Db) (rid s d : Int) (f i : Option Int)
    (h : db.repo_snapshots.any
      (fun x => x.repo_id = rid ∧ x.snapshot_date = d) = true) :
    (save_repo_snapshot db rid s f i d).repo_snapshots.length =
      db.repo_snapshots.length := by
  unfold save_repo_snapshot
  simp only [h, if_true]
  simp

/-- C2: saving a snapshot for the same repository twice on the same calendar
day leaves exactly one row for that `(repository, date)` pair — the second
call overwrites the star/fork/open-issue values of the existing row without
inserting a duplicate — assuming the schema invariant that the pair was
unique beforehand. -/
theorem save_repo_snapshot_same_day_idempotent (db : Db) (rid s1 s2 d : Int)
    (f1 f2 i1 i2 : Option Int) (hinv : snapCount db rid d ≤ 1) :
    snapCount (save_repo_snapshot (save_repo_snapshot db rid s1 f1 i1 d)
        rid s2 f2 i2 d) rid d = 1 ∧
    (save_repo_snapshot (save_repo_snapshot db rid s1 f1 i1 d)
        rid s2 f2 i2 d).repo_snapshots.length =
      (save_repo_snapshot db rid s1 f1 i1 d).repo_snapshots.length ∧
    ∀ row ∈ (save_repo_snapshot (save_repo_snapshot db rid s1 f1 i1 d)
        rid s2 f2 i2 d).repo_snapshots,
      row.repo_id = rid → row.snapshot_date = d →
      row.stars = s2 ∧ row.forks = f2 ∧ row.open_issues = i2 := by
  have h1 : snapCount (save_repo_snapshot db rid s1 f1 i1 d) rid d = 1 :=
    save_snapshot_count db rid s1 d f1 i1 hinv
  have hany : (save_repo_snapshot db rid s1 f1 i1 d).repo_snapshots.any
      (fun x => x.repo_id = rid ∧ x.snapshot_date = d) = true :=
    save_snapshot_any db rid s1 d f1 i1
  refine ⟨save_snapshot_count _ rid s2 d f2 i2 (by omega),
          save_snapshot_len_of_any _ rid s2 d f2 i2 hany, ?_⟩
  intro row hrow
  revert hrow
  conv in save_repo_snapshot (save_repo_snapshot db rid s1 f1 i1 d) rid s2 f2 i2 d =>
    rw [save_repo_snapshot]
  simp only [hany, if_true]
  exact fun hrow => snap_map_values _ rid d s2 f2 i2 row hrow

/-- Witness for C2 at a concrete database: a fresh store, two same-day saves
for repository 1 with different counts. -/
theorem save_repo_snapshot_same_day_idempotent_witness :
    snapCount Db.empty 1 5 ≤ 1 ∧
    (snapCount (save_repo_snapshot (save_repo_snapshot Db.empty 1 10 (some 2)
        (some 3) 5) 1 20 (some 4) (some 6) 5) 1 5 = 1 ∧
     (save_repo_snapshot (save_repo_snapshot Db.empty 1 10 (some 2) (some 3) 5)
        1 20 (some 4) (some 6) 5).repo_snapshots.length =
       (save_repo_snapshot Db.empty 1 10 (some 2) (some 3) 5).repo_snapshots.length ∧
     ∀ row ∈ (save_repo_snapshot (save_repo_snapshot Db.empty 1 10 (some 2)
        (some 3) 5) 1 20 (some 4) (some 6) 5).repo_snapshots,
       row.repo_id = 1 → row.snapshot_date = 5 →
       row.stars = 20 ∧ row.forks = some 4 ∧ row.open_issues = some 6) :=
  ⟨by decide,
   save_repo_snapshot_same_day_idempotent Db.empty 1 10 20 5 (some 2) (some 4)
     (some 3) (some 6) (by decide)⟩

/-- Number of mention rows for a `(repository, source, item)` triple. -/
def mentionCount (db : Db) (rid : Int) (src : String) (sid : Int) : Nat :=
  db.repo_mentions.countP
    (fun m => m.repo_id = rid ∧ m.source_type = src ∧ m.source_id = sid)

/-- C7: recording a repository mention is idempotent.  A second call for the
same `(repository, source, item)` triple — with any mention date — is a no-op
on the whole database state; starting from no row for the triple one call
leaves exactly one row, and the at-most-one-row invariant is preserved by
every call.  Matching one item against a repository via both its URL and its
body text issues exactly such duplicate calls, hence yields a single row. -/
theorem save_repo_mention_idempotent (db : Db) (rid : Int) (src : String)
    (sid d1 d2 : Int) :
    save_repo_mention (save_repo_mention db rid src sid d1) rid src sid d2 =
      save_repo_mention db rid src sid d1 ∧
    (mentionCount db rid src sid = 0 →
      mentionCount (save_repo_mention db rid src sid d1) rid src sid = 1) ∧
    (mentionCount db rid src sid ≤ 1 →
      mentionCount (save_repo_mention db rid src sid d1) rid src sid ≤ 1) := by
  have hstep : ∀ dbx : Db, dbx.repo_mentions.any
      (fun m => m.repo_id = rid ∧ m.source_type = src ∧ m.source_id = sid) = true →
      save_repo_mention dbx rid src sid d2 = dbx := by
    intro dbx hx
    unfold save_repo_mention
    rw [if_pos hx]
  by_cases h : db.repo_mentions.any
      (fun m => m.repo_id = rid ∧ m.source_type = src ∧ m.source_id = sid) = true
  · have hsave : save_repo_mention db rid src sid d1 = db := by
      unfold save_repo_mention
      rw [if_pos h]
    rcases List.any_eq_true.mp h with ⟨a, ha, hpa⟩
    have hpos : 0 < mentionCount db rid src sid :=
      List.countP_pos_iff.mpr ⟨a, ha, hpa⟩
    refine ⟨by rw [hsave]; exact hstep db h, ?_, ?_⟩
    · intro h0
      omega
    · intro h1
      rw [hsave]
      exact h1
  · have hsave : save_repo_mention db rid src sid d1 =
        { db with repo_mentions := db.repo_mentions ++ [⟨rid, src, sid, d1⟩] } := by
      unfold save_repo_mention
      rw [if_neg h]
    have hz : mentionCount db rid src sid = 0 := by
      unfold mentionCount
      rw [List.countP_eq_zero]
      intro a ha hpa
      exact h (List.any_eq_true.mpr ⟨a, ha, hpa⟩)
    have hcount : mentionCount (save_repo_mention db rid src sid d1) rid src sid = 1 := by
      rw [hsave]
      unfold mentionCount at hz ⊢
      simp only [List.countP_append, hz]
      simp
    refine ⟨?_, fun _ => hcount, fun _ => by omega⟩
    apply hstep
    rw [hsave]
    simp

/-- Witness for C7 at a concrete database: an empty store, repository 7,
source "reddit", item 3, two calls on days 10 and 11. -/
theorem save_repo_mention_idempotent_witness :
    save_repo_mention (save_repo_mention Db.empty 7 "reddit" 3 10) 7 "reddit" 3 11 =
      save_repo_mention Db.empty 7 "reddit" 3 10 ∧
    (mentionCount Db.empty 7 "reddit" 3 = 0 ∧
      mentionCount (save_repo_mention Db.empty 7 "reddit" 3 10) 7 "reddit" 3 = 1) :=
  ⟨(save_repo_mention_idempotent Db.empty 7 "reddit" 3 10 11).1,
   by decide,
   (save_repo_mention_idempotent Db.empty 7 "reddit" 3 10 11).2.1 (by decide)⟩

/-- A store already tracking `foo/bar` under external id 5. -/
def c3_db : Db :=
  { Db.empty with repositories :=
      [⟨1, some 5, "foo/bar", none, "https://github.com/foo/bar", none⟩] }

/-- A re-ingested record for `foo/bar` whose external id is absent. -/
def c3_record : RepoRecord :=
  { github_id := none, name := some "foo/bar", desc := none,
    url := some "https://github.com/foo/bar", lang := none, stars := some 10,
    forks := none, open_issues := none, topics := none, files := none,
    readme := none }

/-- C3 counterexample: re-ingesting a record whose canonical name already
exists but whose external id is absent raises a uniqueness-constraint error
instead of updating the existing row — the upsert never matches by name. -/
theorem upsert_repository_name_conflict_counterexample :
    upsert_repository c3_db c3_record =
      Except.error "UNIQUE constraint failed: repositories.full_name" := by
  rfl

/-- C3 amended: the upsert matches an existing repository by external id
only.  When the record's external id matches a stored row, that row is
updated in place and its id returned; when the external id is absent, or
present but matching no row, a plain insert is attempted, and if the
canonical name already exists it fails with a uniqueness violation rather
than updating the row of that name. -/
theorem upsert_repository_external_id_only (db : Db) (r : RepoRecord)
    (nm u : String) (hname : r.name = some nm) (hurl : r.url = some u) :
    (∀ g row, r.github_id = some g →
      db.repositories.find? (fun q => q.github_id = some g) = some row →
      db.repositories.any (fun q => q.id ≠ row.id ∧ q.full_name = nm) = false →
      upsert_repository db r =
        Except.ok ({ db with repositories := db.repositories.map (fun q =>
            if q.id = row.id then
              { q with full_name := nm, description := r.desc, url := u,
                       language := r.lang }
            else q) }, row.id)) ∧
    (r.github_id = none →
      db.repositories.any (fun q => q.full_name = nm) = true →
      upsert_repository db r =
        Except.error "UNIQUE constraint failed: repositories.full_name") ∧
    (∀ g, r.github_id = some g →
      db.repositories.find? (fun q => q.github_id = some g) = none →
      db.repositories.any (fun q => q.full_name = nm) = true →
      upsert_repository db r =
        Except.error "UNIQUE constraint failed: repositories.full_name") := by
  refine ⟨?_, ?_, ?_⟩
  · intro g row hg hfind hany
    unfold upsert_repository
    rw [hg]
    dsimp only
    rw [hname, hurl]
    dsimp only [pyKey]
    rw [hfind]
    dsimp only
    rw [if_neg (by rw [hany]; exact Bool.false_ne_true)]
  · intro hg hany
    unfold upsert_repository
    rw [hg]
    dsimp only
    rw [hname, hurl]
    dsimp only [pyKey]
    rw [if_pos hany]
  · intro g hg hfind hany
    unfold upsert_repository
    rw [hg]
    dsimp only
    rw [hname, hurl]
    dsimp only [pyKey]
    rw [hfind]
    dsimp only
    rw [if_pos hany]

/-- Witness for C3's amended theorem: both error paths and the update path at
concrete stores. -/
theorem upsert_repository_external_id_only_witness :
    upsert_repository c3_db c3_record =
      Except.error "UNIQUE constraint failed: repositories.full_name" ∧
    upsert_repository c3_db
        { c3_record with github_id := some 9, name := some "foo/bar" } =
      Except.error "UNIQUE constraint failed: repositories.full_name" ∧
    upsert_repository c3_db { c3_record with github_id := some 5 } =
      Except.ok ({ c3_db with repositories := c3_db.repositories.map (fun q =>
          if q.id = (1 : Int) then
            { q with full_name := "foo/bar", description := none,
                     url := "https://github.com/foo/bar", language := none }
          else q) }, 1) := by
  refine ⟨?_, ?_, ?_⟩
  · exact (upsert_repository_external_id_only c3_db c3_record "foo/bar"
      "https://github.com/foo/bar" rfl rfl).2.1 rfl (by decide)
  · exact (upsert_repository_external_id_only c3_db
      { c3_record with github_id := some 9, name := some "foo/bar" } "foo/bar"
      "https://github.com/foo/bar" rfl rfl).2.2 9 rfl (by decide) (by decide)
  · have h := (upsert_repository_external_id_only c3_db
      { c3_record with github_id := some 5 } "foo/bar"
      "https://github.com/foo/bar" rfl rfl).1 5
      ⟨1, some 5, "foo/bar", none, "https://github.com/foo/bar", none⟩
      rfl (by decide) (by decide)
    exact h

/-- A well-formed repository record for `a/one`. -/
def c4_good1 : RepoRecord :=
  { github_id := some 1, name := some "a/one", desc := none, url := some "u1",
    lang := some "Python", stars := some 5, forks := none, open_issues := none,
    topics := none, files := none, readme := none }

/-- A malformed record: the mandatory `stars` key is missing, so
`repo["stars"]` raises `KeyError` after the repository row was upserted. -/
def c4_bad : RepoRecord :=
  { github_id := some 2, name := some "b/two", desc := none, url := some "u2",
    lang := none, stars := none, forks := none, open_issues := none,
    topics := none, files := none, readme := none }

/-- A well-formed repository record for `c/three`, after the malformed one. -/
def c4_good2 : RepoRecord :=
  { github_id := some 3, name := some "c/three", desc := none, url := some "u3",
    lang := none, stars := some 7, forks := none, open_issues := none,
    topics := none, files := none, readme := none }

/-- C4 counterexample: in the batch `[a/one, b/two (malformed), c/three]` the
exception raised for the malformed record is NOT caught — it escapes the
batch, and the following record `c/three` is never persisted, while the
record before the failure (`a/one`) is.  The claim that processing continues
with the remaining records is therefore false. -/
theorem persist_github_repos_abort_counterexample :
    (persist_github_repos [c4_good1, c4_bad, c4_good2] Db.empty 100).2.2 =
      some "KeyError: stars" ∧
    (persist_github_repos [c4_good1, c4_bad, c4_good2] Db.empty 100).1.repositories.any
      (fun q => q.full_name = "c/three") = false ∧
    (persist_github_repos [c4_good1, c4_bad, c4_good2] Db.empty 100).1.repositories.any
      (fun q => q.full_name = "a/one") = true := by
  refine ⟨rfl, by decide, by decide⟩

/-- C4 amended: an exception raised while processing one record of an
ingestion batch is not caught per record: the loop stops at the first failing
record, its exception propagates to the caller, the writes of records
processed earlier persist, and the remaining records of the batch are never
processed — for repository batches and HN story batches alike. -/
theorem persist_batch_abort_on_error (db : Db) (today : Int) (r : RepoRecord)
    (rest : List RepoRecord) (rmap : List (String × Int)) (story : HnStory)
    (srest : List HnStory) (e1 e2 : String) :
    ((persist_repo_step db today r).2.2 = some e1 →
      persist_github_repos (r :: rest) db today =
        ((persist_repo_step db today r).1, [], some e1)) ∧
    ((persist_hn_story_step db rmap today story).2 = some e2 →
      persistHnLoop rmap today db (story :: srest) =
        ((persist_hn_story_step db rmap today story).1, some e2)) := by
  constructor
  · intro h
    unfold persist_github_repos persistReposLoop
    rcases hstep : persist_repo_step db today r with ⟨db1, entry, err⟩
    rw [hstep] at h
    dsimp at h
    subst h
    rfl
  · intro h
    unfold persistHnLoop
    rcases hstep : persist_hn_story_step db rmap today story with ⟨db1, err⟩
    rw [hstep] at h
    dsimp at h
    subst h
    rfl

/-- Witness for C4's amended theorem: the malformed repository record aborts
the repository batch, and an HN story with no `title` key aborts the story
batch, each at a concrete store. -/
theorem persist_batch_abort_on_error_witness :
    ((persist_repo_step Db.empty 100 c4_bad).2.2 = some "KeyError: stars" ∧
      persist_github_repos [c4_bad, c4_good2] Db.empty 100 =
        ((persist_repo_step Db.empty 100 c4_bad).1, [], some "KeyError: stars")) ∧
    ((persist_hn_story_step Db.empty [] 100
        { id := some 11, title := none, url := none, score := none,
          comments := none, author := none, hn_link := none,
          article_summary := none, top_comments := none }).2 =
        some "KeyError: title" ∧
      persistHnLoop [] 100 Db.empty
          [{ id := some 11, title := none, url := none, score := none,
             comments := none, author := none, hn_link := none,
             article_summary := none, top_comments := none }] =
        ((persist_hn_story_step Db.empty [] 100
            { id := some 11, title := none, url := none, score := none,
              comments := none, author := none, hn_link := none,
              article_summary := none, top_comments := none }).1,
          some "KeyError: title")) :=
  ⟨⟨rfl, (persist_batch_abort_on_error Db.empty 100 c4_bad [c4_good2] []
      { id := some 11, title := none, url := none, score := none,
        comments := none, author := none, hn_link := none,
        article_summary := none, top_comments := none } []
      "KeyError: stars" "KeyError: title").1 rfl⟩,
   ⟨rfl, (persist_batch_abort_on_error Db.empty 100 c4_bad [c4_good2] []
      { id := some 11, title := none, url := none, score := none,
        comments := none, author := none, hn_link := none,
        article_summary := none, top_comments := none } []
      "KeyError: stars" "KeyError: title").2 rfl⟩⟩

theorem searchCapture_eq_none_of_not_occurs (l : List Char)
    (h : occursIn ("github.com/".data) l = false) : searchCapture l = none := by
  induction l with
  | nil => rfl
  | cons c cs ih =>
    unfold occursIn at h
    rw [Bool.or_eq_false_iff] at h
    obtain ⟨h1, h2⟩ := h
    have hm : matchCapture (c :: cs) = none := by
      unfold matchCapture
      rw [if_neg (by rw [h1]; exact Bool.false_ne_true)]
    unfold searchCapture
    rw [hm]
    exact ih h2

/-- C8: the Matcher's URL extraction returns `foo/bar` on
`https://github.com/foo/Bar.git` — the `owner/name` segment is captured, the
trailing `.git` (likewise `.md`, `.html`) extension stripped, the result
lower-cased — and returns `none` for any string containing no
repository-hosting URL (no occurrence of `github.com/`). -/
theorem extract_github_repo_matcher :
    extract_github_repo_from_url "https://github.com/foo/Bar.git" = some "foo/bar" ∧
    extract_github_repo_from_url "https://github.com/foo/Bar.md" = some "foo/bar" ∧
    extract_github_repo_from_url "https://github.com/foo/Bar.html" = some "foo/bar" ∧
    (∀ url : String, occursIn ("github.com/".data) url.data = false →
      extract_github_repo_from_url url = none) := by
  refine ⟨by decide, by decide, by decide, ?_⟩
  intro url h
  unfold extract_github_repo_from_url
  by_cases he : url = ""
  · rw [if_pos he]
  · rw [if_neg he, searchCapture_eq_none_of_not_occurs url.data h]

/-- Witness for C8's universally quantified clause at a concrete URL-free
string. -/
theorem extract_github_repo_matcher_witness :
    occursIn ("github.com/".data) ("no link here, just prose").data = false ∧
    extract_github_repo_from_url "no link here, just prose" = none :=
  ⟨by decide,
   extract_github_repo_matcher.2.2.2 "no link here, just prose" (by decide)⟩

theorem get_star_growth_none (db : Db) (rid days today : Int)
    (h : ∀ s ∈ db.repo_snapshots, s.repo_id = rid → s.snapshot_date ≠ today) :
    get_star_growth db rid days today = none := by
  unfold get_star_growth
  have hfind : db.repo_snapshots.find?
      (fun s => s.repo_id = rid ∧ s.snapshot_date = today) = none := by
    rw [List.find?_eq_none]
    intro x hx hpx
    have hp := of_decide_eq_true hpx
    exact h x hx hp.1 hp.2
  rw [hfind]

theorem calculate_trend_metrics_none (db : Db) (rid : Int) (name : String)
    (today : Int)
    (h : ∀ s ∈ db.repo_snapshots, s.repo_id = rid → s.snapshot_date ≠ today) :
    calculate_trend_metrics db rid name today = none := by
  unfold calculate_trend_metrics
  rw [get_star_growth_none db rid 7 today h]

theorem calculate_trend_metrics_repo_id (db : Db) (rid : Int) (name : String)
    (today : Int) (m : TrendMetrics)
    (hm : calculate_trend_metrics db rid name today = some m) :
    m.repo_id = rid := by
  unfold calculate_trend_metrics at hm
  cases hg : get_star_growth db rid 7 today with
  | none =>
    rw [hg] at hm
    cases hm
  | some pr =>
    rcases pr with ⟨cur, s7⟩
    rw [hg] at hm
    dsimp at hm
    injection hm with hm'
    subst hm'
    rfl

/-- C9: trend metrics exist only when a snapshot dated exactly today exists:
a repository all of whose snapshots are dated differently gets `None` from
the star-growth query and from the metrics computation, and no metric for it
appears in the metric lists from which the trend report and the weekly report
are built — it is silently omitted, not classified. -/
theorem no_today_snapshot_omitted (db : Db) (rid today : Int) (name : String)
    (repo_names : List String)
    (h : ∀ s ∈ db.repo_snapshots, s.repo_id = rid → s.snapshot_date ≠ today) :
    get_star_growth db rid 7 today = none ∧
    calculate_trend_metrics db rid name today = none ∧
    (trend_report_metrics db repo_names today).all
      (fun m => m.repo_id ≠ rid) = true ∧
    (weekly_report_metrics db today).all (fun m => m.repo_id ≠ rid) = true := by
  refine ⟨get_star_growth_none db rid 7 today h,
          calculate_trend_metrics_none db rid name today h, ?_, ?_⟩
  · rw [List.all_eq_true]
    intro m hm
    unfold trend_report_metrics at hm
    rcases List.mem_filterMap.mp hm with ⟨n, _, hfn⟩
    rw [decide_eq_true_eq]
    intro hEq
    cases hr : get_repo_by_name db n with
    | none =>
      rw [hr] at hfn
      cases hfn
    | some r =>
      rw [hr] at hfn
      dsimp at hfn
      have hrid : m.repo_id = r.id :=
        calculate_trend_metrics_repo_id db r.id n today m hfn
      rw [hEq] at hrid
      rw [← hrid] at hfn
      rw [calculate_trend_metrics_none db rid n today h] at hfn
      cases hfn
  · rw [List.all_eq_true]
    intro m hm
    unfold weekly_report_metrics at hm
    rcases List.mem_filterMap.mp hm with ⟨r, _, hfn⟩
    rw [decide_eq_true_eq]
    intro hEq
    have hrid : m.repo_id = r.id :=
      calculate_trend_metrics_repo_id db r.id r.full_name today m hfn
    rw [hEq] at hrid
    rw [← hrid] at hfn
    rw [calculate_trend_metrics_none db rid r.full_name today h] at hfn
    cases hfn

/-- A store tracking `x/y` (repository 1) whose only snapshot is dated day 5. -/
def c9_db : Db :=
  { Db.empty with
      repositories := [⟨1, some 1, "x/y", none, "u", some "Python"⟩],
      repo_snapshots := [⟨1, 50, none, none, 5⟩] }

/-- Witness for C9: on day 9 repository 1 of `c9_db` has history but no
snapshot dated today, and is omitted everywhere. -/
theorem no_today_snapshot_omitted_witness :
    (∀ s ∈ c9_db.repo_snapshots, s.repo_id = 1 → s.snapshot_date ≠ 9) ∧
    (get_star_growth c9_db 1 7 9 = none ∧
     calculate_trend_metrics c9_db 1 "x/y" 9 = none ∧
     (trend_report_metrics c9_db ["x/y"] 9).all (fun m => m.repo_id ≠ 1) = true ∧
     (weekly_report_metrics c9_db 9).all (fun m => m.repo_id ≠ 1) = true) :=
  ⟨by decide, no_today_snapshot_omitted c9_db 1 9 "x/y" ["x/y"] (by decide)⟩

theorem save_repo_mention_length (db : Db) (rid : Int) (src : String)
    (sid d : Int) :
    (save_repo_mention db rid src sid d).repo_mentions.length ≤
      db.repo_mentions.length + 1 := by
  unfold save_repo_mention
  by_cases h : db.repo_mentions.any
      (fun m => m.repo_id = rid ∧ m.source_type = src ∧ m.source_id = sid) = true
  · rw [if_pos h]
    omega
  · rw [if_neg h]
    simp

theorem find?_cons_pos' {α : Type} (p : α → Bool) (a : α) (l : List α)
    (h : p a = true) : (a :: l).find? p = some a :=
  List.find?_cons_of_pos l h

theorem find?_cons_neg' {α : Type} (p : α → Bool) (a : α) (l : List α)
    (h : p a = false) : (a :: l).find? p = l.find? p :=
  List.find?_cons_of_neg l (by simp [h])

theorem find?_append_first {α : Type} (p : α → Bool) (e : α) (post : List α) :
    ∀ pre : List α, (∀ x ∈ pre, p x = false) → p e = true →
      (pre ++ e :: post).find? p = some e := by
  intro pre
  induction pre with
  | nil =>
    intro _ hp
    rw [List.nil_append]
    exact find?_cons_pos' p e post hp
  | cons x pre' ih =>
    intro hpre hp
    rw [List.cons_append,
      find?_cons_neg' p x (pre' ++ e :: post) (hpre x (by simp))]
    exact ih (fun y hy => hpre y (List.mem_cons_of_mem x hy)) hp

/-- C10: the self-text matching loop records at most one body-derived mention
per Reddit post: it is exactly a `find?` over the tracked repositories —
the db is left unchanged when no tracked name (full or bare) occurs in the
self-text, and otherwise a single mention for the FIRST matching repository
in iteration order is recorded; in particular the mention count grows by at
most one, and a decomposition whose prefix entries all fail the predicate
pinpoints that first match. -/
theorem reddit_body_first_match_only (db : Db) (today post_id : Int)
    (selftext : String) (repo_name_to_id : List (String × Int)) :
    (redditBodyLoop today post_id selftext db repo_name_to_id =
      match repo_name_to_id.find? (fun e => bodyPred selftext e.1) with
      | none => db
      | some e => save_repo_mention db e.2 "reddit" post_id today) ∧
    (redditBodyLoop today post_id selftext db repo_name_to_id).repo_mentions.length ≤
      db.repo_mentions.length + 1 ∧
    (∀ pre e post, repo_name_to_id = pre ++ e :: post →
      (∀ x ∈ pre, bodyPred selftext x.1 = false) →
      bodyPred selftext e.1 = true →
      redditBodyLoop today post_id selftext db repo_name_to_id =
        save_repo_mention db e.2 "reddit" post_id today) := by
  have hchar : ∀ l : List (String × Int),
      redditBodyLoop today post_id selftext db l =
        match l.find? (fun e => bodyPred selftext e.1) with
        | none => db
        | some e => save_repo_mention db e.2 "reddit" post_id today := by
    intro l
    induction l with
    | nil => rfl
    | cons a t ih =>
      by_cases hp : bodyPred selftext a.1 = true
      · unfold redditBodyLoop
        rw [if_pos hp, find?_cons_pos' (fun e => bodyPred selftext e.1) a t hp]
      · unfold redditBodyLoop
        rw [if_neg hp, ih, find?_cons_neg' (fun e => bodyPred selftext e.1) a t
          (Bool.eq_false_iff.mpr hp)]
  refine ⟨hchar repo_name_to_id, ?_, ?_⟩
  · rw [hchar repo_name_to_id]
    cases repo_name_to_id.find? (fun e => bodyPred selftext e.1) with
    | none =>
      show db.repo_mentions.length ≤ db.repo_mentions.length + 1
      omega
    | some e => exact save_repo_mention_length db e.2 "reddit" post_id today
  · rintro pre e post rfl hpre hp
    rw [hchar (pre ++ e :: post),
      find?_append_first (fun x => bodyPred selftext x.1) e post pre hpre hp]

/-- Witness for C10: self-text mentioning both tracked repositories; only the
first in iteration order (`a/alpha`) gets the body-derived mention. -/
theorem reddit_body_first_match_only_witness :
    redditBodyLoop 9 4 "i like a/alpha and b/beta" Db.empty
        [("a/alpha", 1), ("b/beta", 2)] =
      save_repo_mention Db.empty 1 "reddit" 4 9 ∧
    (redditBodyLoop 9 4 "i like a/alpha and b/beta" Db.empty
        [("a/alpha", 1), ("b/beta", 2)]).repo_mentions.length ≤
      Db.empty.repo_mentions.length + 1 :=
  ⟨(reddit_body_first_match_only Db.empty 9 4 "i like a/alpha and b/beta"
      [("a/alpha", 1), ("b/beta", 2)]).2.2 [] ("a/alpha", 1) [("b/beta", 2)]
      rfl (by intro x hx; cases hx) (by decide),
   (reddit_body_first_match_only Db.empty 9 4 "i like a/alpha and b/beta"
      [("a/alpha", 1), ("b/beta", 2)]).2.1⟩

/-- A single persisted weekly report (week starting day 100). -/
def c5_week : WeeklyReportRow :=
  { chat_id := none, week_start := 100, week_end := 107,
    report_data :=
      { summary := some { rising_count := 2, avg_growth := 50,
                          top_language := "Python" },
        language_trends :=
          [("Python", { count := 3, avg_growth := 10, total_growth := 30 })],
        rising_stars := ["a/alpha", "b/beta"] } }

/-- A store holding exactly one weekly report. -/
def c5_db : Db := { Db.empty with weekly_reports := [c5_week] }

/-- C5 (code bug): with exactly ONE persisted weekly report — fewer than the
2 its own insufficient-data message demands — `generate_monthly_report`
returns no insufficient-data marker at all and happily computes weekly
summaries and language evolution from the single report; the `message` is set
only when zero reports exist. -/
theorem generate_monthly_report_single_week_no_marker :
    (get_weekly_reports c5_db none 4).length = 1 ∧
    (generate_monthly_report c5_db none 130).message = none ∧
    (generate_monthly_report c5_db none 130).weekly_summaries ≠ [] ∧
    (generate_monthly_report c5_db none 130).language_evolution ≠ [] ∧
    (generate_monthly_report { Db.empty with weekly_reports := [] } none
      130).message ≠ none := by
  refine ⟨by decide, by decide, by decide, by decide, by decide⟩

/-- The newer weekly report: Python's total growth fell to 5. -/
def c6_week_new : WeeklyReportRow :=
  { chat_id := none, week_start := 200, week_end := 207,
    report_data :=
      { summary := some { rising_count := 0, avg_growth := 5,
                          top_language := "Python" },
        language_trends :=
          [("Python", { count := 1, avg_growth := 5, total_growth := 5 })],
        rising_stars := [] } }

/-- The older weekly report: Python's total growth was 100. -/
def c6_week_old : WeeklyReportRow :=
  { chat_id := none, week_start := 100, week_end := 107,
    report_data :=
      { summary := some { rising_count := 1, avg_growth := 100,
                          top_language := "Python" },
        language_trends :=
          [("Python", { count := 1, avg_growth := 100, total_growth := 100 })],
        rising_stars := [] } }

/-- A store holding the two weekly reports. -/
def c6_db : Db :=
  { Db.empty with weekly_reports := [c6_week_old, c6_week_new] }

/-- C6 (code bug): the weekly reports are retrieved newest-first, so the
per-language growth list is `[newest, ..., oldest]`; the code labels the
trend "rising" when `growths[-1] > growths[0]`, i.e. when the OLDEST value
exceeds the NEWEST.  Here Python's growth collapsed from 100 (old week) to 5
(new week) — the newest value is smaller than the oldest — yet the monthly
report labels Python "rising". -/
theorem generate_monthly_report_language_trend_inverted :
    (get_weekly_reports c6_db none 4).map (fun w => w.week_start) = [200, 100] ∧
    ((generate_monthly_report c6_db none 230).language_evolution.find?
      (fun p => p.1 = "Python")).map (fun p => p.2.trend) = some "rising" ∧
    c6_week_new.report_data.language_trends.map (fun p => p.2.total_growth) = [5] ∧
    c6_week_old.report_data.language_trends.map (fun p => p.2.total_growth) = [100] := by
  refine ⟨by decide, by decide, by decide, by decide⟩
